import Mathlib

/-!
Verification of the atmospy weather-client library.

This file gives a shallow embedding of the library's Python source
(`src/atmospy/functions.py`, `src/atmospy/models.py`, `src/atmospy/client.py`,
`src/atmospy/exceptions.py`) and proves the specification claims about it.

Modelling conventions:
  * JSON-like values are the inductive `JsonVal`; a Python dict is an
    association list `Dict` (`List (String × JsonVal)`); key membership and
    access follow `List.lookup`, matching Python dict semantics.
  * Python exceptions become the error type `PyError`; a function that can
    raise returns `Except PyError α`.  The distinct `ValueError` messages of
    the source are carried verbatim, so the error conditions of the spec
    (InvalidDateFormat, OutOfRangeDate, InvalidRange, ...) stay
    distinguishable exactly as they are in the source.
  * `datetime.strptime(dt, "%Y-%m-%d")` is embedded by the parser
    `strptimeYmd` below, which follows CPython `_strptime.py`: the format
    compiles to the regular expression
    `(?P<Y>\d\d\d\d)-(?P<m>1[0-2]|0[1-9]|[1-9])-(?P<d>3[01]|[12]\d|0[1-9]|[1-9])`
    matched from the start of the string with the requirement that no
    unconverted data remains, after which `datetime(year, month, day)`
    validates the calendar values (1 <= year <= 9999, day within the month).
    Note the month/day groups also accept single non-zero-padded digits.
    `\d` is embedded as the ASCII digits; CPython's `\d` additionally
    matches non-ASCII Unicode decimal digits, so theorems comparing the
    parser with pattern predicates are stated for ASCII strings.
  * Python `date` values are represented by their proleptic Gregorian
    ordinal (`date.toordinal`, embedded as `toOrdinal`); `date` comparison
    and `timedelta(days := n)` addition coincide with ordinal comparison
    and addition, and `datetime.now().date()` becomes an explicit
    `todayOrd` parameter.
  * The dataclass constructors of `models.py` take keyword arguments: an
    unknown keyword raises `TypeError`, a parameter with a default that is
    not supplied gets the default (`None`), and a parameter without a
    default that is not supplied raises `TypeError`.  `mkLocation`,
    `mkCurrent` and `mkForecast` embed `Location(**d)`, `Current(**d)` and
    `Forecast(**d)`.
  * The HTTP transport (the `requests` library) is an external collaborator;
    its outcome is the parameter `HTTPOutcome`: either a response with a
    status code and an optional JSON-decoded body (`none` when the body is
    not decodable, in which case `response.json()` raises a
    `RequestException`), or a lower-level transport failure.
    `response.raise_for_status()` raises `HTTPError` exactly for status
    codes in [400, 600), per the requests library and the source's own
    comment ("Raises HTTPError for bad responses (4xx or 5xx)").
-/

namespace Atmospy

/-- JSON-like values as delivered by the upstream API.  Numbers keep a
decimal representation `float m e` meaning `m / 10 ^ e`; the library never
computes with them, it only stores them. -/
inductive JsonVal where
  | null : JsonVal
  | bool (b : Bool) : JsonVal
  | int (n : Int) : JsonVal
  | float (mant : Int) (exp : Nat) : JsonVal
  | str (s : String) : JsonVal
  | arr (xs : List JsonVal) : JsonVal
  | obj (fields : List (String × JsonVal)) : JsonVal

/-- A Python dict with string keys, as an association list. -/
abbrev Dict := List (String × JsonVal)

/-- The exceptions of the library (`exceptions.py` plus the built-in
exceptions the source raises).  The spec's error taxonomy maps onto it:
MissingCredential = `missingAPIKeyError`, MissingRequiredField =
`missingParamsError` / `keyError`, InvalidRange / InvalidDateFormat /
OutOfRangeDate = `valueError` with the respective source message,
UpstreamRequestFailed = `apiRequestError`. -/
inductive PyError where
  | keyError (msg : String) : PyError
  | typeError (msg : String) : PyError
  | valueError (msg : String) : PyError
  | missingAPIKeyError (msg : String) : PyError
  | missingParamsError (msg : String) : PyError
  | apiRequestError (status_code : Nat) (msg : String) : PyError
deriving DecidableEq

/-! ## Data model (`models.py`)

Python dataclasses perform no runtime type checking: a field holds whatever
value the keyword argument supplied, and optional fields default to `None`.
Each optional field is therefore an `Option JsonVal`. -/

/-- Dataclass `Condition` of `models.py` (never constructed by the mapper;
kept for completeness of the data model). -/
structure Condition where
  text : Option JsonVal := none
  icon : Option JsonVal := none
  code : Option JsonVal := none

/-- Dataclass `Current` of `models.py`. -/
structure Current where
  last_updated_epoch : Option JsonVal := none
  last_updated : Option JsonVal := none
  temp_c : Option JsonVal := none
  temp_f : Option JsonVal := none
  is_day : Option JsonVal := none
  condition : Option JsonVal := none

/-- Dataclass `Location` of `models.py`. -/
structure Location where
  name : Option JsonVal := none
  region : Option JsonVal := none
  country : Option JsonVal := none
  lat : Option JsonVal := none
  lon : Option JsonVal := none
  tz_id : Option JsonVal := none
  localtime_epoch : Option JsonVal := none
  localtime : Option JsonVal := none

/-- Dataclass `Forecast` of `models.py`: its single field `forecastday` has
no default (it is required).  The mapper passes the raw JSON value through
unchanged — it never converts the items to `ForecastDay` records — so the
field holds a `JsonVal`. -/
structure Forecast where
  forecastday : JsonVal

/-- Dataclass `WeatherData` of `models.py`: the root aggregate. -/
structure WeatherData where
  location : Option Location := none
  current : Option Current := none
  forecast : Option Forecast := none

/-- Keyword parameter names of `Location.__init__`. -/
def locationFields : List String :=
  ["name", "region", "country", "lat", "lon", "tz_id", "localtime_epoch", "localtime"]

/-- Keyword parameter names of `Current.__init__`. -/
def currentFields : List String :=
  ["last_updated_epoch", "last_updated", "temp_c", "temp_f", "is_day", "condition"]

/-- Embedding of `Location(**d)`: every supplied keyword must be a declared
field (otherwise `TypeError`), and missing fields take their `None`
default. -/
def mkLocation (d : Dict) : Except PyError Location :=
  if d.all (fun kv => locationFields.contains kv.1) then
    .ok
      { name := d.lookup "name"
        region := d.lookup "region"
        country := d.lookup "country"
        lat := d.lookup "lat"
        lon := d.lookup "lon"
        tz_id := d.lookup "tz_id"
        localtime_epoch := d.lookup "localtime_epoch"
        localtime := d.lookup "localtime" }
  else
    .error (.typeError "Location.__init__ got an unexpected keyword argument")

/-- Embedding of `Current(**d)`. -/
def mkCurrent (d : Dict) : Except PyError Current :=
  if d.all (fun kv => currentFields.contains kv.1) then
    .ok
      { last_updated_epoch := d.lookup "last_updated_epoch"
        last_updated := d.lookup "last_updated"
        temp_c := d.lookup "temp_c"
        temp_f := d.lookup "temp_f"
        is_day := d.lookup "is_day"
        condition := d.lookup "condition" }
  else
    .error (.typeError "Current.__init__ got an unexpected keyword argument")

/-- Embedding of `Forecast(**d)`: the single parameter `forecastday` has no
default, so it must be supplied, and no other keyword is accepted. -/
def mkForecast (d : Dict) : Except PyError Forecast :=
  if d.all (fun kv => kv.1 == "forecastday") then
    match d.lookup "forecastday" with
    | some v => .ok { forecastday := v }
    | none => .error (.typeError "Forecast.__init__ missing required argument forecastday")
  else
    .error (.typeError "Forecast.__init__ got an unexpected keyword argument")

/-- Embedding of the `**` unpacking in `Cls(**value)`: the value must be a
mapping, otherwise Python raises `TypeError`. -/
def asMapping : JsonVal → Except PyError Dict
  | .obj d => .ok d
  | _ => .error (.typeError "argument after ** must be a mapping")

/-! ## Response mapper (`functions.get_object_to`) -/

/-- Composition of the `**` unpacking with a dataclass constructor:
`mk(**v)`. -/
def buildFrom {α : Type} (mk : Dict → Except PyError α) (v : JsonVal) : Except PyError α :=
  match asMapping v with
  | .ok d => mk d
  | .error e => .error e

/-- Message of the `KeyError` for a payload missing `location` or
`current`. -/
def keysMissingMsg : String := "Response must contain location and current keys."

/-- Embedding of `functions.get_object_to` (the spec's `map_response`):
raises `KeyError` when `location` or `current` is absent, builds `Location`
first and `Current` second from the sub-mappings, and, when a `forecast`
key is present, attaches `Forecast(**response.get("forecast"))` to the
already-constructed result. -/
def get_object_to (response : Dict) : Except PyError WeatherData :=
  if (response.lookup "location").isSome ∧ (response.lookup "current").isSome then
    match buildFrom mkLocation ((response.lookup "location").getD .null) with
    | .error e => .error e
    | .ok loc =>
      match buildFrom mkCurrent ((response.lookup "current").getD .null) with
      | .error e => .error e
      | .ok cur =>
        match response.lookup "forecast" with
        | none => .ok { location := some loc, current := some cur }
        | some fc =>
          match buildFrom mkForecast fc with
          | .error e => .error e
          | .ok f => .ok { location := some loc, current := some cur, forecast := some f }
  else
    .error (.keyError keysMissingMsg)

/-! ## Date parsing (`datetime.strptime(dt, "%Y-%m-%d")`) -/

/-- Value of an ASCII digit character (the regex class `\d`). -/
def digitVal (c : Char) : Option Nat :=
  if c.isDigit then some (c.toNat - 48) else none

/-- Month value of a two-digit token: the regex alternatives
`1[0-2] | 0[1-9]`. -/
def monthVal2 (a b : Char) : Option Nat :=
  if a = '1' ∧ ('0' ≤ b ∧ b ≤ '2') then some (10 + (b.toNat - 48))
  else if a = '0' ∧ ('1' ≤ b ∧ b ≤ '9') then some (b.toNat - 48)
  else none

/-- Day value of a two-digit token: the regex alternatives
`3[01] | [12]\d | 0[1-9]`. -/
def dayVal2 (a b : Char) : Option Nat :=
  if a = '3' ∧ (b = '0' ∨ b = '1') then some (30 + (b.toNat - 48))
  else if (a = '1' ∨ a = '2') ∧ b.isDigit then some ((a.toNat - 48) * 10 + (b.toNat - 48))
  else if a = '0' ∧ ('1' ≤ b ∧ b ≤ '9') then some (b.toNat - 48)
  else none

/-- Value of a single-digit token: the regex alternative `[1-9]`. -/
def val1 (a : Char) : Option Nat :=
  if '1' ≤ a ∧ a ≤ '9' then some (a.toNat - 48) else none

/-- The day group followed by end-of-input ("unconverted data remains"
check): a two-digit token consuming the whole rest, or a one-digit token
consuming the whole rest.  The two-digit alternatives of the regex come
first, and a longer rest can match neither. -/
def parseDayEnd : List Char → Option Nat
  | [a, b] => dayVal2 a b
  | [a] => val1 a
  | _ => none

/-- The month group read as a two-digit token, followed by the literal `-`
and the day group. -/
def parseMD2 : List Char → Option (Nat × Nat)
  | a :: b :: c :: rest =>
    if c = '-' then
      match monthVal2 a b, parseDayEnd rest with
      | some m, some d => some (m, d)
      | _, _ => none
    else none
  | _ => none

/-- The month group read as a one-digit token (`[1-9]`), followed by the
literal `-` and the day group. -/
def parseMD1 : List Char → Option (Nat × Nat)
  | a :: b :: rest =>
    if b = '-' then
      match val1 a, parseDayEnd rest with
      | some m, some d => some (m, d)
      | _, _ => none
    else none
  | _ => none

/-- Month group then day group with regex backtracking: the two-digit month
alternatives (`1[0-2] | 0[1-9]`) are tried before the one-digit alternative
(`[1-9]`), and a failure of the rest of the pattern falls through to the
next alternative. -/
def parseMonthDay (cs : List Char) : Option (Nat × Nat) :=
  match parseMD2 cs with
  | some r => some r
  | none => parseMD1 cs

/-- Embedding of the regex match of `strptime(s, "%Y-%m-%d")`: exactly four
digits for `%Y`, a literal `-`, the month group, a literal `-`, the day
group, and nothing after it. -/
def strptimeYmd (s : String) : Option (Nat × Nat × Nat) :=
  match s.data with
  | a :: b :: c :: d :: e :: rest =>
    if e = '-' then
      match digitVal a, digitVal b, digitVal c, digitVal d, parseMonthDay rest with
      | some va, some vb, some vc, some vd, some md =>
          some (((va * 10 + vb) * 10 + vc) * 10 + vd, md.1, md.2)
      | _, _, _, _, _ => none
    else none
  | _ => none

/-- Whether a year is a leap year (proleptic Gregorian, as in Python's
`datetime`). -/
def isLeap (y : Nat) : Bool := y % 4 = 0 ∧ (y % 100 ≠ 0 ∨ y % 400 = 0)

/-- Number of days in a month, as in Python's `datetime`. -/
def daysInMonth (y m : Nat) : Nat :=
  if m = 2 then (if isLeap y then 29 else 28)
  else if m = 4 ∨ m = 6 ∨ m = 9 ∨ m = 11 then 30
  else 31

/-- The validation the `datetime(year, month, day)` constructor performs
after the regex groups are converted by `int(...)`: `MINYEAR = 1`,
`MAXYEAR = 9999`, month in [1, 12], day in [1, days in month]. -/
def mkDatetime (y m d : Nat) : Option (Nat × Nat × Nat) :=
  if 1 ≤ y ∧ y ≤ 9999 ∧ 1 ≤ m ∧ m ≤ 12 ∧ 1 ≤ d ∧ d ≤ daysInMonth y m then
    some (y, m, d)
  else none

/-- Full embedding of `datetime.strptime(s, "%Y-%m-%d")`: `some (y, m, d)`
when it returns a datetime, `none` when it raises `ValueError`. -/
def strptimeDate (s : String) : Option (Nat × Nat × Nat) :=
  (strptimeYmd s).bind fun ymd => mkDatetime ymd.1 ymd.2.1 ymd.2.2

/-! ## Validator (`functions.py`) -/

/-- Embedding of `functions.validate_format`: true exactly when
`datetime.strptime(dt, "%Y-%m-%d")` does not raise. -/
def validate_format (dt : String) : Bool :=
  (strptimeDate dt).isSome

/-- Number of days before January 1 of year `y` in the proleptic Gregorian
calendar (as in CPython `datetime._days_before_year`). -/
def daysBeforeYear (y : Nat) : Nat :=
  365 * (y - 1) + (y - 1) / 4 - (y - 1) / 100 + (y - 1) / 400

/-- Number of days in year `y` before month `m` (as in CPython
`datetime._days_before_month`). -/
def daysBeforeMonth (y : Nat) : Nat → Nat
  | 0 => 0
  | 1 => 0
  | m + 1 => daysBeforeMonth y m + daysInMonth y m

/-- The proleptic Gregorian ordinal of a date (`date.toordinal`).  Python's
`date` comparison coincides with comparison of ordinals, and adding
`timedelta(days := n)` adds `n` to the ordinal. -/
def toOrdinal (y m d : Nat) : Nat :=
  daysBeforeYear y + daysBeforeMonth y m + d

/-- The message of the `ValueError` raised for a malformed date string (the
spec's InvalidDateFormat condition). -/
def invalidFormatMsg : String := "The date must be in the format YYYY-MM-DD."

/-- The message of the `ValueError` raised for a date outside the allowed
window (the spec's OutOfRangeDate condition). -/
def outOfRangeMsg : String := "The date must be between today and the next 14 days."

/-- Embedding of `functions.validate_datetime`.  `todayOrd` is the ordinal
of `datetime.now().date()`, taken at call time.  The source checks
`validate_format` (re-raising as the format `ValueError`), re-parses the
string — which cannot fail any more — and then checks
`today <= input_date <= today + timedelta(days=14)`, both bounds
inclusive. -/
def validate_datetime (todayOrd : Nat) (dt : String) : Except PyError Unit :=
  match strptimeDate dt with
  | none => .error (.valueError invalidFormatMsg)
  | some ymd =>
    if todayOrd ≤ toOrdinal ymd.1 ymd.2.1 ymd.2.2 ∧
        toOrdinal ymd.1 ymd.2.1 ymd.2.2 ≤ todayOrd + 14 then
      .ok ()
    else
      .error (.valueError outOfRangeMsg)

/-! ## Client (`client.py`) -/

/-- Outcome of the external HTTP transport for one request: a response with
a status code and (when the body is JSON-decodable as a mapping) a decoded
body, or a lower-level transport failure (DNS, connection, timeout)
described by `desc`.  A non-decodable body makes `response.json()` raise a
`RequestException`. -/
inductive HTTPOutcome where
  | response (status_code : Nat) (body : Option Dict) : HTTPOutcome
  | failure (desc : String) : HTTPOutcome

/-- Message of the default `MissingParamsError`. -/
def missingParamsMsg : String := "Missing parameters for the request."

/-- Message carried by the `HTTPError` that `raise_for_status` raises for a
4xx/5xx status (the exact text comes from the requests library; only the
status code it carries matters to the spec). -/
def httpErrorText (status : Nat) : String :=
  "HTTP error for status " ++ toString status

/-- Embedding of `endpoint.startswith("/")`: the first character is `/`. -/
def startsWithSlash (s : String) : Bool :=
  match s.data with
  | c :: _ => c = '/'
  | [] => false

/-- The `try` block of `WeatherClient._make_request` together with its two
exception handlers, for a given transport outcome: `raise_for_status`
raises `HTTPError` exactly for status codes in [400, 600), re-raised as
`APIRequestError` with that status code; a transport-level
`RequestException` (including a non-decodable body from `response.json()`)
is re-raised as `APIRequestError` with the synthetic status 500; a decoded
body is handed to `get_object_to`, whose failures propagate. -/
def transportDispatch (outcome : HTTPOutcome) : Except PyError WeatherData :=
  match outcome with
  | .failure desc => .error (.apiRequestError 500 ("Request failed: " ++ desc))
  | .response status body =>
    if 400 ≤ status ∧ status < 600 then
      .error (.apiRequestError status (httpErrorText status))
    else
      match body with
      | none => .error (.apiRequestError 500 "Request failed: body is not valid JSON")
      | some payload => get_object_to payload

/-- Embedding of `WeatherClient._make_request`.  The api key is appended to
the query parameters and the request is delegated to the transport, whose
outcome is the explicit `outcome` parameter. -/
def make_request (outcome : HTTPOutcome) (endpoint : String)
    (params : List (String × JsonVal)) : Except PyError WeatherData :=
  if ¬ startsWithSlash endpoint then
    .error (.valueError "Endpoint must start with /")
  else if params.isEmpty then
    .error (.missingParamsError missingParamsMsg)
  else
    transportDispatch outcome

/-- The query parameters `get_current_weather` hands to `_make_request`:
`{'q': city_name, 'lang': language}` (a `None` language is still an entry
of the dict; requests drops it from the wire encoding only). -/
def currentParams (city_name : String) (language : Option String) : List (String × JsonVal) :=
  [("q", .str city_name), ("lang", (language.map JsonVal.str).getD .null)]

/-- Embedding of `WeatherClient.get_current_weather`. -/
def get_current_weather (outcome : HTTPOutcome) (city_name : String)
    (language : Option String) : Except PyError WeatherData :=
  if city_name = "" then .error (.missingParamsError missingParamsMsg)
  else make_request outcome "/current.json" (currentParams city_name language)

/-- The query parameters `get_forecast` hands to `_make_request`:
`{'q': city_name, 'days': days, 'dt': dt}`. -/
def forecastParams (city_name : String) (days : Int) (dt : Option String) :
    List (String × JsonVal) :=
  [("q", .str city_name), ("days", .int days), ("dt", (dt.map JsonVal.str).getD .null)]

/-- Embedding of `WeatherClient.get_forecast`.  `not days` is true in
Python exactly for `days == 0` (for an integer argument), `if dt:` skips
the date validation for an absent or empty date string, and a `ValueError`
of `validate_datetime` propagates unchanged. -/
def get_forecast (outcome : HTTPOutcome) (todayOrd : Nat) (city_name : String)
    (days : Int) (dt : Option String) : Except PyError WeatherData :=
  if city_name = "" ∨ days = 0 then
    .error (.missingParamsError missingParamsMsg)
  else if days < 1 ∨ days > 14 then
    .error (.valueError "Days must be between 1 and 14.")
  else
    match dt with
    | some s =>
      if s = "" then make_request outcome "/forecast.json" (forecastParams city_name days dt)
      else
        (validate_datetime todayOrd s).bind fun _ =>
          make_request outcome "/forecast.json" (forecastParams city_name days dt)
    | none => make_request outcome "/forecast.json" (forecastParams city_name days dt)

/-! ## Spec-side definitions

The following definitions formalise the WORDING of the specification (the
pattern `YYYY-MM-DD`, a valid calendar date, the record a sub-mapping
should produce); the claim theorems compare them with the embedded code. -/

/-- The `Location` record the spec describes for a sub-mapping: each field
is the value stored under the field's name, absent when the key is
missing. -/
def locationOfDict (d : Dict) : Location :=
  { name := d.lookup "name"
    region := d.lookup "region"
    country := d.lookup "country"
    lat := d.lookup "lat"
    lon := d.lookup "lon"
    tz_id := d.lookup "tz_id"
    localtime_epoch := d.lookup "localtime_epoch"
    localtime := d.lookup "localtime" }

/-- The `Current` record the spec describes for a sub-mapping. -/
def currentOfDict (d : Dict) : Current :=
  { last_updated_epoch := d.lookup "last_updated_epoch"
    last_updated := d.lookup "last_updated"
    temp_c := d.lookup "temp_c"
    temp_f := d.lookup "temp_f"
    is_day := d.lookup "is_day"
    condition := d.lookup "condition" }

/-! ## Helper lemmas about the dataclass constructors and the mapper -/

theorem mkLocation_ok_of_legal (d : Dict)
    (h : d.all (fun kv => locationFields.contains kv.1) = true) :
    mkLocation d = .ok (locationOfDict d) := by
  unfold mkLocation
  rw [if_pos h]
  rfl

theorem mkCurrent_ok_of_legal (d : Dict)
    (h : d.all (fun kv => currentFields.contains kv.1) = true) :
    mkCurrent d = .ok (currentOfDict d) := by
  unfold mkCurrent
  rw [if_pos h]
  rfl

theorem mkLocation_error_of_illegal (d : Dict)
    (h : d.all (fun kv => locationFields.contains kv.1) = false) :
    mkLocation d = .error (.typeError "Location.__init__ got an unexpected keyword argument") := by
  unfold mkLocation
  rw [if_neg (by rw [h]; exact Bool.false_ne_true)]

theorem mkCurrent_error_of_illegal (d : Dict)
    (h : d.all (fun kv => currentFields.contains kv.1) = false) :
    mkCurrent d = .error (.typeError "Current.__init__ got an unexpected keyword argument") := by
  unfold mkCurrent
  rw [if_neg (by rw [h]; exact Bool.false_ne_true)]

theorem mkForecast_ok (d : Dict) (v : JsonVal)
    (h1 : d.all (fun kv => kv.1 == "forecastday") = true)
    (h2 : d.lookup "forecastday" = some v) :
    mkForecast d = .ok { forecastday := v } := by
  simp [mkForecast, h1, h2]

theorem mkForecast_error_of_missing (d : Dict)
    (h : d.lookup "forecastday" = none) :
    ∃ m, mkForecast d = .error (.typeError m) := by
  unfold mkForecast
  split
  · rw [h]
    exact ⟨_, rfl⟩
  · exact ⟨_, rfl⟩

theorem mkForecast_error_of_illegal (d : Dict)
    (h : d.all (fun kv => kv.1 == "forecastday") = false) :
    mkForecast d =
      .error (.typeError "Forecast.__init__ got an unexpected keyword argument") := by
  unfold mkForecast
  rw [if_neg (by rw [h]; exact Bool.false_ne_true)]

theorem mkLocation_error_shape (d : Dict) (e : PyError) (h : mkLocation d = .error e) :
    ∃ m, e = .typeError m := by
  unfold mkLocation at h
  split at h
  · exact Except.noConfusion h
  · injection h with h2
    exact ⟨_, h2.symm⟩

theorem mkCurrent_error_shape (d : Dict) (e : PyError) (h : mkCurrent d = .error e) :
    ∃ m, e = .typeError m := by
  unfold mkCurrent at h
  split at h
  · exact Except.noConfusion h
  · injection h with h2
    exact ⟨_, h2.symm⟩

theorem mkForecast_error_shape (d : Dict) (e : PyError) (h : mkForecast d = .error e) :
    ∃ m, e = .typeError m := by
  unfold mkForecast at h
  split at h
  · split at h
    · exact Except.noConfusion h
    · injection h with h2
      exact ⟨_, h2.symm⟩
  · injection h with h2
    exact ⟨_, h2.symm⟩

theorem asMapping_error_shape (v : JsonVal) (e : PyError) (h : asMapping v = .error e) :
    ∃ m, e = .typeError m := by
  cases v <;> simp [asMapping] at h <;> exact ⟨_, h.symm⟩

theorem buildFrom_obj {α : Type} (mk : Dict → Except PyError α) (d : Dict) :
    buildFrom mk (.obj d) = mk d := rfl

theorem buildFrom_error_shape {α : Type} (mk : Dict → Except PyError α)
    (hmk : ∀ d e, mk d = .error e → ∃ m, e = .typeError m)
    (v : JsonVal) (e : PyError) (h : buildFrom mk v = .error e) : ∃ m, e = .typeError m := by
  unfold buildFrom at h
  split at h
  next d hd => exact hmk d e h
  next e2 hd =>
    injection h with h2
    exact h2 ▸ asMapping_error_shape v e2 hd

theorem get_object_to_error_shape (response : Dict) (e : PyError)
    (h : get_object_to response = .error e) :
    (e = .keyError keysMissingMsg ∧
      (response.lookup "location" = none ∨ response.lookup "current" = none)) ∨
    ∃ m, e = .typeError m := by
  unfold get_object_to at h
  split at h
  case isTrue hp =>
    right
    split at h
    next e1 h1 =>
      injection h with h2
      exact h2 ▸ buildFrom_error_shape mkLocation mkLocation_error_shape _ _ h1
    next loc h1 =>
      split at h
      next e2 h2 =>
        injection h with h3
        exact h3 ▸ buildFrom_error_shape mkCurrent mkCurrent_error_shape _ _ h2
      next cur h2 =>
        split at h
        next h3 => exact Except.noConfusion h
        next fc h3 =>
          split at h
          next e4 h4 =>
            injection h with h5
            exact h5 ▸ buildFrom_error_shape mkForecast mkForecast_error_shape _ _ h4
          next f h4 => exact Except.noConfusion h
  case isFalse hp =>
    left
    injection h with h2
    refine ⟨h2.symm, ?_⟩
    rcases not_and_or.mp hp with h3 | h3
    · exact Or.inl (Option.not_isSome_iff_eq_none.mp h3)
    · exact Or.inr (Option.not_isSome_iff_eq_none.mp h3)

theorem get_object_to_two (lv cv : JsonVal) :
    get_object_to [("location", lv), ("current", cv)] =
      (match buildFrom mkLocation lv with
      | .error e => .error e
      | .ok loc =>
        match buildFrom mkCurrent cv with
        | .error e => .error e
        | .ok cur => .ok { location := some loc, current := some cur }) := rfl

theorem get_object_to_three (lv cv fv : JsonVal) :
    get_object_to [("location", lv), ("current", cv), ("forecast", fv)] =
      (match buildFrom mkLocation lv with
      | .error e => .error e
      | .ok loc =>
        match buildFrom mkCurrent cv with
        | .error e => .error e
        | .ok cur =>
          match buildFrom mkForecast fv with
          | .error e => .error e
          | .ok f => .ok { location := some loc, current := some cur, forecast := some f }) := rfl

/-! ## Claim C5 -/

/-- Claim C5: `get_object_to` (the spec's `map_response`) fails with the
MissingRequiredField condition (the `KeyError` of the source) if and only
if the `location` key or the `current` key is absent from the payload
mapping; in that case the error is returned instead of any partial
result. -/
theorem claim_C5_missing_required_iff (response : Dict) :
    ((∃ msg, get_object_to response = .error (.keyError msg)) ↔
      response.lookup "location" = none ∨ response.lookup "current" = none) ∧
    (response.lookup "location" = none ∨ response.lookup "current" = none →
      get_object_to response = .error (.keyError keysMissingMsg)) := by
  have hmiss : response.lookup "location" = none ∨ response.lookup "current" = none →
      get_object_to response = .error (.keyError keysMissingMsg) := by
    intro h
    unfold get_object_to
    rw [if_neg]
    intro hc
    rcases h with h | h <;> rw [h] at hc <;> simp at hc
  refine ⟨⟨?_, fun h => ⟨keysMissingMsg, hmiss h⟩⟩, hmiss⟩
  rintro ⟨msg, hmsg⟩
  rcases get_object_to_error_shape response _ hmsg with ⟨_, hm⟩ | ⟨m, hm⟩
  · exact hm
  · exact PyError.noConfusion hm

/-- Witness for C5: both `map_response({})` and
`map_response({'current': {'temp_c': 15.0}})` fail with the `KeyError`. -/
theorem claim_C5_witness :
    get_object_to [] = .error (.keyError keysMissingMsg) ∧
    get_object_to [("current", .obj [("temp_c", .float 150 1)])] =
      .error (.keyError keysMissingMsg) :=
  ⟨(claim_C5_missing_required_iff []).2 (Or.inl rfl),
   (claim_C5_missing_required_iff [("current", .obj [("temp_c", .float 150 1)])]).2 (Or.inl rfl)⟩

/-! ## Claim C6 -/

/-- Claim C6: every `WeatherData` that `get_object_to` returns successfully
has both `location` and `current` populated, and has `forecast` populated
exactly when the input payload contained a `forecast` key — there is no
partial-success state. -/
theorem claim_C6_success_invariant (response : Dict) (w : WeatherData)
    (h : get_object_to response = .ok w) :
    w.location.isSome = true ∧ w.current.isSome = true ∧
      (w.forecast.isSome = true ↔ (response.lookup "forecast").isSome = true) := by
  unfold get_object_to at h
  split at h
  case isTrue hp =>
    split at h
    next e1 h1 => exact Except.noConfusion h
    next loc h1 =>
      split at h
      next e2 h2 => exact Except.noConfusion h
      next cur h2 =>
        split at h
        next h3 =>
          injection h with h4
          subst h4
          simp [h3]
        next fc h3 =>
          split at h
          next e4 h4 => exact Except.noConfusion h
          next f h4 =>
            injection h with h5
            subst h5
            simp [h3]
  case isFalse hp => exact Except.noConfusion h

/-- Witness for C6 at the minimal Paris payload. -/
theorem claim_C6_witness :
    (WeatherData.location
        { location := some (locationOfDict [("name", .str "Paris")])
          current := some (currentOfDict [("temp_c", .float 180 1)])
          forecast := none }).isSome = true :=
  (claim_C6_success_invariant
    [("location", .obj [("name", .str "Paris")]), ("current", .obj [("temp_c", .float 180 1)])]
    _ rfl).1

/-! ## Claim C9 -/

/-- Claim C9: `get_object_to` is deterministic (the spec's "idempotent"):
two successful runs on the same payload yield `WeatherData` values that are
equal field for field. -/
theorem claim_C9_deterministic (response : Dict) (w₁ w₂ : WeatherData)
    (h₁ : get_object_to response = .ok w₁) (h₂ : get_object_to response = .ok w₂) :
    w₁.location = w₂.location ∧ w₁.current = w₂.current ∧ w₁.forecast = w₂.forecast := by
  rw [h₁] at h₂
  injection h₂ with h
  exact h ▸ ⟨rfl, rfl, rfl⟩

/-- Witness for C9 at the minimal Paris payload. -/
theorem claim_C9_witness :
    (WeatherData.location
        { location := some (locationOfDict [("name", .str "Paris")])
          current := some (currentOfDict [("temp_c", .float 180 1)])
          forecast := none })
      = some (locationOfDict [("name", .str "Paris")]) :=
  (claim_C9_deterministic
    [("location", .obj [("name", .str "Paris")]), ("current", .obj [("temp_c", .float 180 1)])]
    _ _ rfl rfl).1.trans rfl

/-! ## Claim C2 -/

/-- Counterexample for C2: the claim says unknown/extra keys in a
sub-mapping are ignored, so this payload — `location` carries the extra key
`foo` — should map successfully; the code raises `TypeError` (`Location`
is called with an unexpected keyword argument), so the mapping fails. -/
theorem claim_C2_counterexample :
    get_object_to
        [("location", .obj [("name", .str "Paris"), ("foo", .int 1)]), ("current", .obj [])] =
      .error (.typeError "Location.__init__ got an unexpected keyword argument") := rfl

/-- Claim C2 as amended: for payloads with `location` and `current`
sub-mappings, keys missing from a sub-mapping become absent-value defaults
and the mapping succeeds when every key of a sub-mapping is a declared
field, but an unknown/extra key makes the mapping fail with `TypeError`
(it is NOT ignored); the Paris example of the claim holds as stated. -/
theorem claim_C2_amended (dloc dcur : Dict) :
    (dloc.all (fun kv => locationFields.contains kv.1) = true →
      dcur.all (fun kv => currentFields.contains kv.1) = true →
      get_object_to [("location", .obj dloc), ("current", .obj dcur)] =
        .ok { location := some (locationOfDict dloc), current := some (currentOfDict dcur),
              forecast := none }) ∧
    (dloc.all (fun kv => locationFields.contains kv.1) = false →
      get_object_to [("location", .obj dloc), ("current", .obj dcur)] =
        .error (.typeError "Location.__init__ got an unexpected keyword argument")) ∧
    (dloc.all (fun kv => locationFields.contains kv.1) = true →
      dcur.all (fun kv => currentFields.contains kv.1) = false →
      get_object_to [("location", .obj dloc), ("current", .obj dcur)] =
        .error (.typeError "Current.__init__ got an unexpected keyword argument")) := by
  refine ⟨fun h1 h2 => ?_, fun h1 => ?_, fun h1 h2 => ?_⟩
  · rw [get_object_to_two, buildFrom_obj, buildFrom_obj,
      mkLocation_ok_of_legal dloc h1, mkCurrent_ok_of_legal dcur h2]
  · rw [get_object_to_two, buildFrom_obj, buildFrom_obj, mkLocation_error_of_illegal dloc h1]
  · rw [get_object_to_two, buildFrom_obj, buildFrom_obj,
      mkLocation_ok_of_legal dloc h1, mkCurrent_error_of_illegal dcur h2]

/-- Witness for C2 (amended): the Paris example succeeds, its `forecast`
is absent, and `location.name` is `'Paris'`. -/
theorem claim_C2_witness :
    get_object_to
        [("location", .obj [("name", .str "Paris")]), ("current", .obj [("temp_c", .float 180 1)])] =
      .ok { location := some (locationOfDict [("name", .str "Paris")]),
            current := some (currentOfDict [("temp_c", .float 180 1)]), forecast := none } ∧
    (locationOfDict [("name", .str "Paris")]).name = some (.str "Paris") :=
  ⟨(claim_C2_amended [("name", .str "Paris")] [("temp_c", .float 180 1)]).1 rfl rfl, rfl⟩

/-! ## Claim C1 -/

/-- Counterexample for C1: the claim says each forecast day requires
`date`, `date_epoch`, `day`, `astro` and an `hour` sequence, and that the
absence of any of these makes the mapping fail.  Here the forecast day
item is the empty mapping — all five fields are absent — yet the code
succeeds: `get_object_to` never constructs `ForecastDay` records, it
stores the raw `forecastday` value unchecked. -/
theorem claim_C1_counterexample :
    get_object_to [("location", .obj []), ("current", .obj []),
        ("forecast", .obj [("forecastday", .arr [.obj []])])] =
      .ok { location := some {}, current := some {},
            forecast := some { forecastday := .arr [.obj []] } } := rfl

/-- Claim C1 as amended: for payloads with `location`, `current` and
`forecast` keys, the forecast sub-mapping is handed to the `Forecast`
constructor, which requires the single field `forecastday` (its absence is
a hard construction failure); the value under `forecastday` is attached
as-is, without building `ForecastDay` records, so forecast-day items
lacking `date`, `date_epoch`, `day`, `astro` or `hour` do NOT make the
mapping fail.  For payloads without a `forecast` key the result's
`forecast` field is absent.  (The last conjunct additionally records, over
and above the amended claim, that the constructor rejects a sub-mapping
carrying any keyword other than `forecastday`, so the success conjunct's
hypothesis is exactly the constructor's acceptance condition.) -/
theorem claim_C1_amended (dloc dcur df : Dict) (v : JsonVal)
    (h1 : dloc.all (fun kv => locationFields.contains kv.1) = true)
    (h2 : dcur.all (fun kv => currentFields.contains kv.1) = true) :
    (df.all (fun kv => kv.1 == "forecastday") = true → df.lookup "forecastday" = some v →
      get_object_to [("location", .obj dloc), ("current", .obj dcur), ("forecast", .obj df)] =
        .ok { location := some (locationOfDict dloc), current := some (currentOfDict dcur),
              forecast := some { forecastday := v } }) ∧
    (df.lookup "forecastday" = none →
      ∃ m, get_object_to [("location", .obj dloc), ("current", .obj dcur), ("forecast", .obj df)] =
        .error (.typeError m)) ∧
    (get_object_to [("location", .obj dloc), ("current", .obj dcur)] =
      .ok { location := some (locationOfDict dloc), current := some (currentOfDict dcur),
            forecast := none }) ∧
    (df.all (fun kv => kv.1 == "forecastday") = false →
      get_object_to [("location", .obj dloc), ("current", .obj dcur), ("forecast", .obj df)] =
        .error (.typeError "Forecast.__init__ got an unexpected keyword argument")) := by
  refine ⟨fun h3 h4 => ?_, fun h3 => ?_, ?_, fun h3 => ?_⟩
  · rw [get_object_to_three, buildFrom_obj, buildFrom_obj, buildFrom_obj,
      mkLocation_ok_of_legal dloc h1, mkCurrent_ok_of_legal dcur h2, mkForecast_ok df v h3 h4]
  · obtain ⟨m, hm⟩ := mkForecast_error_of_missing df h3
    refine ⟨m, ?_⟩
    rw [get_object_to_three, buildFrom_obj, buildFrom_obj, buildFrom_obj,
      mkLocation_ok_of_legal dloc h1, mkCurrent_ok_of_legal dcur h2, hm]
  · rw [get_object_to_two, buildFrom_obj, buildFrom_obj,
      mkLocation_ok_of_legal dloc h1, mkCurrent_ok_of_legal dcur h2]
  · rw [get_object_to_three, buildFrom_obj, buildFrom_obj, buildFrom_obj,
      mkLocation_ok_of_legal dloc h1, mkCurrent_ok_of_legal dcur h2,
      mkForecast_error_of_illegal df h3]

/-- Witness for C1 (amended) at a concrete full payload. -/
theorem claim_C1_witness :
    get_object_to [("location", .obj [("name", .str "London")]), ("current", .obj []),
        ("forecast", .obj [("forecastday", .arr [])])] =
      .ok { location := some (locationOfDict [("name", .str "London")]),
            current := some (currentOfDict []),
            forecast := some { forecastday := .arr [] } } :=
  (claim_C1_amended [("name", .str "London")] [] [("forecastday", .arr [])] (.arr [])
    rfl rfl).1 rfl rfl

/-! ## Character and digit lemmas for the date-format claims -/

theorem daysInMonth_pos (y m : Nat) : 1 ≤ daysInMonth y m := by
  unfold daysInMonth
  split
  · split <;> omega
  · split <;> omega

theorem validate_datetime_of_none {todayOrd : Nat} {dt : String}
    (h : strptimeDate dt = none) :
    validate_datetime todayOrd dt = .error (.valueError invalidFormatMsg) := by
  unfold validate_datetime
  rw [h]

theorem validate_datetime_of_some {todayOrd : Nat} {dt : String} {y m d : Nat}
    (h : strptimeDate dt = some (y, m, d)) :
    validate_datetime todayOrd dt =
      if todayOrd ≤ toOrdinal y m d ∧ toOrdinal y m d ≤ todayOrd + 14 then .ok ()
      else .error (.valueError outOfRangeMsg) := by
  unfold validate_datetime
  rw [h]

/-- Claim C4: for every current date (as its ordinal `todayOrd`) and every
date string, `validate_datetime` succeeds silently exactly when the string
is format-valid and the parsed date lies in the inclusive window
[today, today + 14 days]; a format-invalid string fails with the
InvalidDateFormat condition, a format-valid but out-of-window string fails
with the OutOfRangeDate condition, and the two failure conditions are
distinguishable. -/
theorem claim_C4_datetime_window (todayOrd : Nat) (dt : String) :
    (validate_datetime todayOrd dt = .ok () ↔
      validate_format dt = true ∧ ∃ y m d, strptimeDate dt = some (y, m, d) ∧
        todayOrd ≤ toOrdinal y m d ∧ toOrdinal y m d ≤ todayOrd + 14) ∧
    (validate_format dt = false →
      validate_datetime todayOrd dt = .error (.valueError invalidFormatMsg)) ∧
    (∀ y m d, strptimeDate dt = some (y, m, d) →
      ¬(todayOrd ≤ toOrdinal y m d ∧ toOrdinal y m d ≤ todayOrd + 14) →
      validate_datetime todayOrd dt = .error (.valueError outOfRangeMsg)) ∧
    PyError.valueError invalidFormatMsg ≠ PyError.valueError outOfRangeMsg := by
  refine ⟨?_, ?_, ?_, by decide⟩
  · cases h : strptimeDate dt with
    | none =>
      rw [validate_datetime_of_none h]
      simp only [validate_format, h, Option.isSome_none]
      constructor
      · intro hc
        exact Except.noConfusion hc
      · rintro ⟨hc, -⟩
        exact Bool.noConfusion hc
    | some ymd =>
      obtain ⟨y, m, d⟩ := ymd
      rw [validate_datetime_of_some h]
      by_cases hr : todayOrd ≤ toOrdinal y m d ∧ toOrdinal y m d ≤ todayOrd + 14
      · rw [if_pos hr]
        simp only [validate_format, h, Option.isSome_some, true_and]
        exact ⟨fun _ => ⟨y, m, d, rfl, hr⟩, fun _ => trivial⟩
      · rw [if_neg hr]
        constructor
        · intro hc
          exact Except.noConfusion hc
        · rintro ⟨-, y2, m2, d2, hsome, hr2⟩
          injection hsome with h2
          injection h2 with hy hmd
          injection hmd with hm hd
          subst hy
          subst hm
          subst hd
          exact absurd hr2 hr
  · intro hf
    unfold validate_format at hf
    cases h : strptimeDate dt with
    | none => exact validate_datetime_of_none h
    | some ymd =>
      rw [h] at hf
      exact Bool.noConfusion hf
  · intro y m d hsome hr
    rw [validate_datetime_of_some hsome, if_neg hr]

/-- Witness for C4 with today = 2025-10-05 (ordinal 739529): 2025-10-10 is
accepted, 2025/10/10 fails with the format condition, 2025-10-25 fails
with the range condition. -/
theorem claim_C4_witness :
    validate_datetime 739529 "2025-10-10" = .ok () ∧
    validate_datetime 739529 "2025/10/10" = .error (.valueError invalidFormatMsg) ∧
    validate_datetime 739529 "2025-10-25" = .error (.valueError outOfRangeMsg) :=
  ⟨(claim_C4_datetime_window 739529 "2025-10-10").1.mpr
      ⟨rfl, 2025, 10, 10, rfl, by norm_num [toOrdinal, daysBeforeYear, daysBeforeMonth,
        daysInMonth, isLeap], by norm_num [toOrdinal, daysBeforeYear, daysBeforeMonth,
        daysInMonth, isLeap]⟩,
   (claim_C4_datetime_window 739529 "2025/10/10").2.1 rfl,
   (claim_C4_datetime_window 739529 "2025-10-25").2.2.1 2025 10 25 rfl
      (by norm_num [toOrdinal, daysBeforeYear, daysBeforeMonth, daysInMonth, isLeap])⟩

/-! ## Helper lemmas about the client -/

theorem get_forecast_dt_some (outcome : HTTPOutcome) (todayOrd : Nat) (city : String)
    (days : Int) (s : String) (h1 : ¬(city = "" ∨ days = 0)) (h2 : ¬(days < 1 ∨ days > 14)) :
    get_forecast outcome todayOrd city days (some s) =
      (if s = "" then make_request outcome "/forecast.json" (forecastParams city days (some s))
       else (validate_datetime todayOrd s).bind fun _ =>
         make_request outcome "/forecast.json" (forecastParams city days (some s))) := by
  unfold get_forecast
  rw [if_neg h1, if_neg h2]

theorem get_forecast_dt_none (outcome : HTTPOutcome) (todayOrd : Nat) (city : String)
    (days : Int) (h1 : ¬(city = "" ∨ days = 0)) (h2 : ¬(days < 1 ∨ days > 14)) :
    get_forecast outcome todayOrd city days none =
      make_request outcome "/forecast.json" (forecastParams city days none) := by
  unfold get_forecast
  rw [if_neg h1, if_neg h2]

theorem make_request_of_valid (outcome : HTTPOutcome) (endpoint : String)
    (params : List (String × JsonVal)) (h1 : startsWithSlash endpoint = true)
    (h2 : params ≠ []) :
    make_request outcome endpoint params = transportDispatch outcome := by
  unfold make_request
  rw [if_neg (not_not_intro h1), if_neg (fun hc => h2 (List.isEmpty_iff.mp hc))]

theorem transportDispatch_failure_eq (desc : String) :
    transportDispatch (.failure desc) =
      .error (.apiRequestError 500 ("Request failed: " ++ desc)) := rfl

theorem transportDispatch_response_eq (status : Nat) (body : Option Dict) :
    transportDispatch (.response status body) =
      (if 400 ≤ status ∧ status < 600 then
        .error (.apiRequestError status (httpErrorText status))
      else
        match body with
        | none => .error (.apiRequestError 500 "Request failed: body is not valid JSON")
        | some payload => get_object_to payload) := rfl

theorem make_request_status_error (outcome : HTTPOutcome) (endpoint : String)
    (params : List (String × JsonVal)) (status : Nat) (body : Option Dict)
    (h1 : startsWithSlash endpoint = true) (h2 : params ≠ [])
    (h3 : 400 ≤ status) (h4 : status < 600)
    (ho : outcome = .response status body) :
    make_request outcome endpoint params =
      .error (.apiRequestError status (httpErrorText status)) := by
  subst ho
  rw [make_request_of_valid _ _ _ h1 h2, transportDispatch_response_eq, if_pos ⟨h3, h4⟩]

theorem make_request_transport_error (outcome : HTTPOutcome) (endpoint : String)
    (params : List (String × JsonVal)) (desc : String)
    (h1 : startsWithSlash endpoint = true) (h2 : params ≠ [])
    (ho : outcome = .failure desc) :
    make_request outcome endpoint params =
      .error (.apiRequestError 500 ("Request failed: " ++ desc)) := by
  subst ho
  rw [make_request_of_valid _ _ _ h1 h2, transportDispatch_failure_eq]

theorem currentParams_ne_nil (city : String) (lang : Option String) :
    currentParams city lang ≠ [] := by
  unfold currentParams
  exact List.cons_ne_nil _ _

theorem forecastParams_ne_nil (city : String) (days : Int) (dt : Option String) :
    forecastParams city days dt ≠ [] := by
  unfold forecastParams
  exact List.cons_ne_nil _ _

theorem get_object_to_ne_missingParams (response : Dict) (msg : String) :
    get_object_to response ≠ .error (.missingParamsError msg) := by
  intro h
  rcases get_object_to_error_shape response _ h with ⟨he, -⟩ | ⟨m, he⟩
  · exact PyError.noConfusion he
  · exact PyError.noConfusion he

theorem transportDispatch_ne_missingParams (outcome : HTTPOutcome) (msg : String) :
    transportDispatch outcome ≠ .error (.missingParamsError msg) := by
  cases outcome with
  | failure desc =>
    rw [transportDispatch_failure_eq]
    intro h
    injection h with h2
    exact PyError.noConfusion h2
  | response status body =>
    rw [transportDispatch_response_eq]
    split
    · intro h
      injection h with h2
      exact PyError.noConfusion h2
    · cases body with
      | none =>
        intro h
        injection h with h2
        exact PyError.noConfusion h2
      | some payload => exact get_object_to_ne_missingParams payload msg

theorem make_request_ne_missingParams (outcome : HTTPOutcome) (endpoint : String)
    (params : List (String × JsonVal)) (h2 : params ≠ []) (msg : String) :
    make_request outcome endpoint params ≠ .error (.missingParamsError msg) := by
  unfold make_request
  split
  · intro h
    injection h with h3
    exact PyError.noConfusion h3
  · rw [if_neg (fun hc => h2 (List.isEmpty_iff.mp hc))]
    exact transportDispatch_ne_missingParams outcome msg

theorem validate_datetime_error_shape {todayOrd : Nat} {s : String} {e : PyError}
    (h : validate_datetime todayOrd s = .error e) : ∃ m, e = .valueError m := by
  cases h2 : strptimeDate s with
  | none =>
    rw [validate_datetime_of_none h2] at h
    injection h with h3
    exact ⟨_, h3.symm⟩
  | some ymd =>
    obtain ⟨y, m, d⟩ := ymd
    rw [validate_datetime_of_some h2] at h
    split at h
    · exact Except.noConfusion h
    · injection h with h3
      exact ⟨_, h3.symm⟩

/-! ## Claim C7 -/

/-- Counterexample for C7: the claim says that whenever a date is given,
`get_forecast` runs it through the Validator first and propagates the
Validator's failure unchanged.  The empty string is a given date string on
which the Validator fails with the InvalidDateFormat condition — yet
`get_forecast("Tokyo", days=5, dt="")` does NOT propagate that failure:
the source guard is `if dt:`, the empty string is falsy, so validation is
skipped and the request is dispatched (here failing with the transport's
`APIRequestError`, not with the Validator's `ValueError`). -/
theorem claim_C7_counterexample :
    validate_datetime 739529 "" = .error (.valueError invalidFormatMsg) ∧
    get_forecast (.failure "net down") 739529 "Tokyo" 5 (some "") =
      .error (.apiRequestError 500 "Request failed: net down") := ⟨rfl, rfl⟩

/-- Claim C7 as amended: `get_forecast` fails with the
MissingRequiredField condition (`MissingParamsError`) when the city is
empty or `days` is zero (Python's `not days` for an int argument);
otherwise it fails with the InvalidRange condition when `days` is outside
[1, 14]; otherwise a given NON-EMPTY date string is run through the
validator first and the validator's failure propagates unchanged, while a
given EMPTY date string is falsy under the source's `if dt:` guard and is
treated as absent — validation is skipped and the request is issued.  In
particular `get_forecast("Tokyo", days=15)` fails with InvalidRange and
`get_forecast("Tokyo", days=5, dt="2025/10/10")` fails with the
InvalidDateFormat condition. -/
theorem claim_C7_forecast_validation (outcome : HTTPOutcome) (todayOrd : Nat)
    (city : String) (days : Int) (dt : Option String) :
    ((city = "" ∨ days = 0) →
      get_forecast outcome todayOrd city days dt =
        .error (.missingParamsError missingParamsMsg)) ∧
    (city ≠ "" → days ≠ 0 → (days < 1 ∨ days > 14) →
      get_forecast outcome todayOrd city days dt =
        .error (.valueError "Days must be between 1 and 14.")) ∧
    (∀ s e, city ≠ "" → days ≠ 0 → ¬(days < 1 ∨ days > 14) → dt = some s → s ≠ "" →
      validate_datetime todayOrd s = .error e →
      get_forecast outcome todayOrd city days dt = .error e) ∧
    (city ≠ "" → days ≠ 0 → ¬(days < 1 ∨ days > 14) →
      get_forecast outcome todayOrd city days (some "") =
        make_request outcome "/forecast.json" (forecastParams city days (some ""))) ∧
    (city ≠ "" → days ≠ 0 → ¬(days < 1 ∨ days > 14) →
      get_forecast outcome todayOrd city days none =
        make_request outcome "/forecast.json" (forecastParams city days none)) ∧
    get_forecast outcome todayOrd "Tokyo" 15 dt =
      .error (.valueError "Days must be between 1 and 14.") ∧
    get_forecast outcome todayOrd "Tokyo" 5 (some "2025/10/10") =
      .error (.valueError invalidFormatMsg) := by
  refine ⟨?_, ?_, ?_, ?_, ?_, ?_, rfl⟩
  · intro h
    unfold get_forecast
    rw [if_pos h]
  · intro h1 h2 h3
    unfold get_forecast
    rw [if_neg (not_or.mpr ⟨h1, h2⟩), if_pos h3]
  · intro s e h1 h2 h3 hdt hs he
    subst hdt
    rw [get_forecast_dt_some outcome todayOrd city days s (not_or.mpr ⟨h1, h2⟩) h3,
      if_neg hs, he]
    rfl
  · intro h1 h2 h3
    rw [get_forecast_dt_some outcome todayOrd city days "" (not_or.mpr ⟨h1, h2⟩) h3,
      if_pos rfl]
  · intro h1 h2 h3
    exact get_forecast_dt_none outcome todayOrd city days (not_or.mpr ⟨h1, h2⟩) h3
  · cases dt with
    | none =>
      unfold get_forecast
      rw [if_neg (by simp), if_pos (by norm_num)]
    | some s =>
      unfold get_forecast
      rw [if_neg (by simp), if_pos (by norm_num)]

/-- Witness for C7 (amended): the MissingRequiredField,
validator-propagation and empty-date-skips-validation branches at
concrete inputs (today = 2025-10-05, its ordinal 739529). -/
theorem claim_C7_witness :
    get_forecast (.failure "net down") 739529 "" 5 none =
      .error (.missingParamsError missingParamsMsg) ∧
    get_forecast (.failure "net down") 739529 "Tokyo" 0 none =
      .error (.missingParamsError missingParamsMsg) ∧
    get_forecast (.failure "net down") 739529 "Tokyo" 5 (some "2025-10-25") =
      .error (.valueError outOfRangeMsg) ∧
    get_forecast (.failure "net down") 739529 "Tokyo" 5 (some "") =
      make_request (.failure "net down") "/forecast.json"
        (forecastParams "Tokyo" 5 (some "")) :=
  ⟨(claim_C7_forecast_validation (.failure "net down") 739529 "" 5 none).1 (Or.inl rfl),
   (claim_C7_forecast_validation (.failure "net down") 739529 "Tokyo" 0 none).1 (Or.inr rfl),
   (claim_C7_forecast_validation (.failure "net down") 739529 "Tokyo" 5
      (some "2025-10-25")).2.2.1 "2025-10-25" (.valueError outOfRangeMsg)
      (by decide) (by decide) (by norm_num) rfl (by decide) rfl,
   (claim_C7_forecast_validation (.failure "net down") 739529 "Tokyo" 5
      (some "")).2.2.2.1 (by decide) (by decide) (by norm_num)⟩

/-! ## Claim C8 -/

/-- Counterexample for C8: the claim says that for ANY non-2xx HTTP status
the call fails with UpstreamRequestFailed carrying that status code.  Here
the transport returns status 304 — a non-2xx status — with a decodable
body, and `get_current_weather("London")` SUCCEEDS: `raise_for_status`
only raises `HTTPError` for statuses in [400, 600), so a 3xx response
reaching the client is processed like a success. -/
theorem claim_C8_counterexample :
    get_current_weather
        (.response 304 (some [("location", .obj []), ("current", .obj [])])) "London" none =
      .ok { location := some {}, current := some {} } := rfl

/-- Claim C8 as amended: for every request dispatched by `_make_request`,
a transport response with a 4xx or 5xx status (not: any non-2xx status)
makes the call fail with an `APIRequestError` carrying that status code
and a message, a lower-level transport failure makes it fail with the same
condition kind carrying the synthetic status 500 and the underlying cause
description, and in particular a transport returning HTTP 401 makes
`get_current_weather("London")` fail with `APIRequestError` carrying
status code 401. -/
theorem claim_C8_amended (endpoint : String) (params : List (String × JsonVal))
    (status : Nat) (body : Option Dict) (desc : String) (lang : Option String) :
    (startsWithSlash endpoint = true → params ≠ [] → 400 ≤ status → status < 600 →
      make_request (.response status body) endpoint params =
        .error (.apiRequestError status (httpErrorText status))) ∧
    (startsWithSlash endpoint = true → params ≠ [] →
      make_request (.failure desc) endpoint params =
        .error (.apiRequestError 500 ("Request failed: " ++ desc))) ∧
    get_current_weather (.response 401 body) "London" lang =
      .error (.apiRequestError 401 (httpErrorText 401)) := by
  refine ⟨?_, ?_, ?_⟩
  · intro h1 h2 h3 h4
    exact make_request_status_error _ _ _ status body h1 h2 h3 h4 rfl
  · intro h1 h2
    exact make_request_transport_error _ _ _ desc h1 h2 rfl
  · unfold get_current_weather
    rw [if_neg (by decide)]
    exact make_request_status_error _ _ _ 401 body rfl
      (currentParams_ne_nil "London" lang) (by norm_num) (by norm_num) rfl

/-- Witness for C8 (amended) at a concrete transport outcome. -/
theorem claim_C8_witness :
    make_request (.response 503 none) "/current.json" [("q", .str "London")] =
      .error (.apiRequestError 503 (httpErrorText 503)) ∧
    make_request (.failure "connection timed out") "/current.json" [("q", .str "London")] =
      .error (.apiRequestError 500 "Request failed: connection timed out") :=
  ⟨(claim_C8_amended "/current.json" [("q", .str "London")] 503 none "x" none).1
      rfl (List.cons_ne_nil _ _) (by norm_num) (by norm_num),
   (claim_C8_amended "/current.json" [("q", .str "London")] 503 none
      "connection timed out" none).2.1 rfl (List.cons_ne_nil _ _)⟩

/-! ## Claim C10 -/

/-- Claim C10 (implicit): `_make_request` fails with `MissingParamsError`
when its params mapping is empty — a failure mode the spec does not
mention — but this branch is unreachable from the two public methods: the
params dicts they build are never empty (they always carry their fixed
keys), and consequently no call to `get_current_weather` or `get_forecast`
that passes its own argument validation can fail with
`MissingParamsError`. -/
theorem claim_C10_missing_params_unreachable :
    (∀ (outcome : HTTPOutcome) (endpoint : String), startsWithSlash endpoint = true →
      make_request outcome endpoint [] = .error (.missingParamsError missingParamsMsg)) ∧
    (∀ city lang, currentParams city lang ≠ []) ∧
    (∀ city days dt, forecastParams city days dt ≠ []) ∧
    (∀ outcome city lang msg, city ≠ "" →
      get_current_weather outcome city lang ≠ .error (.missingParamsError msg)) ∧
    (∀ outcome todayOrd city days dt msg, city ≠ "" → days ≠ 0 →
      get_forecast outcome todayOrd city days dt ≠ .error (.missingParamsError msg)) := by
  refine ⟨?_, currentParams_ne_nil, forecastParams_ne_nil, ?_, ?_⟩
  · intro outcome endpoint h
    unfold make_request
    rw [if_neg (not_not_intro h)]
    rfl
  · intro outcome city lang msg hc
    unfold get_current_weather
    rw [if_neg hc]
    exact make_request_ne_missingParams _ _ _ (currentParams_ne_nil city lang) msg
  · intro outcome todayOrd city days dt msg hc hd
    by_cases hr : days < 1 ∨ days > 14
    · unfold get_forecast
      rw [if_neg (not_or.mpr ⟨hc, hd⟩), if_pos hr]
      intro hcon
      injection hcon with h2
      exact PyError.noConfusion h2
    · cases dt with
      | none =>
        rw [get_forecast_dt_none outcome todayOrd city days (not_or.mpr ⟨hc, hd⟩) hr]
        exact make_request_ne_missingParams _ _ _ (forecastParams_ne_nil city days none) msg
      | some s =>
        rw [get_forecast_dt_some outcome todayOrd city days s (not_or.mpr ⟨hc, hd⟩) hr]
        split
        · exact make_request_ne_missingParams _ _ _
            (forecastParams_ne_nil city days (some s)) msg
        · cases hv : validate_datetime todayOrd s with
          | ok u =>
            exact make_request_ne_missingParams _ _ _
              (forecastParams_ne_nil city days (some s)) msg
          | error e =>
            obtain ⟨m, hm⟩ := validate_datetime_error_shape hv
            subst hm
            intro hcon
            injection hcon with h2
            exact PyError.noConfusion h2

/-- Witness for C10: the empty-params branch of `_make_request` at a
concrete call, and the public methods never surfacing it. -/
theorem claim_C10_witness :
    make_request (.failure "x") "/current.json" [] =
      .error (.missingParamsError missingParamsMsg) :=
  claim_C10_missing_params_unreachable.1 (.failure "x") "/current.json" rfl

end Atmospy
